import Mathlib

/-!
Shallow embedding of the review-notification relay in
`src/pages/api/slack.ts` (the categorized variant): a single Next.js API
handler that authenticates a request by header credential, validates the
JSON body, deduplicates against a `sent_pr` store, resolves reviewer
identities to Slack ids via a `user_map` store, composes a Slack message
from the change category, dispatches it to a webhook, and records the
event.  External collaborators (store reads, webhook, insert) are
modelled as oracle functions in a `World`; the handler returns its HTTP
response together with a log of the outbound calls it made.
-/

namespace NotifyPr

/-- A JavaScript runtime value, as far as the handler's `typeof` /
`Array.isArray` checks can distinguish them. -/
inductive JsValue where
  | str (s : String)
  | num (n : Int)
  | boolean (b : Bool)
  | arr (xs : List JsValue)
  | jsNull
  | undef

/-- The destructured fields of `req.body`; a field missing from the JSON
body destructures to `undef`. -/
structure Body where
  reviewers : JsValue
  repository : JsValue
  pr_id : JsValue
  pr_url : JsValue
  pr_title : JsValue
  type : JsValue

/-- An inbound HTTP request: method, the `x-api-key` header (absent
headers read as `undefined`, modelled `none`), and the parsed body. -/
structure Request where
  method : String
  apiKey : Option String
  body : Body

/-- `typeof v === "string"`. -/
def isString : JsValue → Bool
  | .str _ => true
  | _ => false

/-- `typeof v === "number"`. -/
def isNumber : JsValue → Bool
  | .num _ => true
  | _ => false

/-- `Array.isArray(v) && v.every((x) => typeof x === "string")`. -/
def isStringArray : JsValue → Bool
  | .arr xs => xs.all isString
  | _ => false

/-- JavaScript `v === lbl` for a string literal `lbl`: true exactly when
`v` is the string `lbl`. -/
def isLabel (v : JsValue) (lbl : String) : Bool :=
  match v with
  | .str s => s == lbl
  | _ => false

/-- `["feature", "release", "hotfix"].includes(v)`. -/
def typeIncluded (v : JsValue) : Bool :=
  isLabel v "feature" || isLabel v "release" || isLabel v "hotfix"

/-- The body validation from the handler: the negation of the `if`
condition that returns 400 "Invalid input". -/
def validBody (b : Body) : Bool :=
  isStringArray b.reviewers && isString b.repository && isNumber b.pr_id &&
    isString b.pr_url && isString b.pr_title && typeIncluded b.type

/-- Read a string out of a validated `JsValue` (only reached when the
validator has established `isString`). -/
def getStr : JsValue → String
  | .str s => s
  | _ => ""

/-- Read a number out of a validated `JsValue`. -/
def getNum : JsValue → Int
  | .num n => n
  | _ => 0

/-- Read the reviewers array out of a validated `JsValue`. -/
def getStrList : JsValue → List String
  | .arr xs => xs.map getStr
  | _ => []

/-- A row of the `user_map` store as selected by the handler:
`select("slack_id")`.  A SQL `NULL` slack id is `none`. -/
structure UserRow where
  slack_id : Option String
  deriving DecidableEq, Repr

/-- JavaScript truthiness of `user.slack_id` (`undefined`, `null` and the
empty string are falsy; any other string is truthy). -/
def truthyHandle : Option String → Bool
  | none => false
  | some s => !(s = "")

/-- The row inserted into the `sent_pr` store on success. -/
structure SentPrRow where
  repository : String
  pr_id : Int
  pr_url : String
  pr_title : String
  type : String
  deriving DecidableEq, Repr

/-- One element of `slackMessage.attachments`. -/
structure Attachment where
  color : String
  title : String
  text : String
  deriving DecidableEq, Repr

/-- The payload POSTed to the Slack webhook. -/
structure SlackMessage where
  attachments : List Attachment
  deriving DecidableEq, Repr

/-- The external collaborators, as oracles: for each outbound call, what
the outside world answers.  The handler itself is deterministic given a
`World`. -/
structure World where
  /-- `process.env.API_KEY` (`none` when unset). -/
  apiKeySecret : Option String
  /-- `data` of the `sent_pr` dedup query keyed by `(repository, pr_id)`;
  `some ()` when a row exists. -/
  dedupData : String → Int → Option Unit
  /-- `error.code` of the dedup query; `none` when no error.  The
  "no rows" condition of `.single()` is the code `"PGRST116"`. -/
  dedupError : String → Int → Option String
  /-- `data` of the `user_map` query keyed by the reviewers list. -/
  userMapData : List String → Option (List UserRow)
  /-- whether the `user_map` query reports an error. -/
  userMapError : List String → Bool
  /-- `response.ok` of the webhook POST for a given payload. -/
  webhookOk : SlackMessage → Bool
  /-- whether the `sent_pr` insert reports an error for a given row. -/
  insertError : SentPrRow → Bool

/-- The outbound calls one handler invocation performed, in the order the
code issues them.  Each list is the (sub)sequence of calls of that kind. -/
structure Effects where
  dedupReads : List (String × Int)
  userMapReads : List (List String)
  webhookCalls : List SlackMessage
  inserts : List SentPrRow
  deriving DecidableEq, Repr

/-- No outbound call at all. -/
def Effects.nil : Effects := ⟨[], [], [], []⟩

/-- The HTTP response the handler sends. -/
structure Response where
  status : Nat
  message : String
  deriving DecidableEq, Repr

/-- The `(color, messageIntro, finalMessage, title)` tuple the handler
assembles with `let` mutation based on `type`.  The comparisons are the
source's `===` against the two non-default labels, so any other value
(including `"feature"` and an absent `type`) keeps the defaults. -/
structure ComposeCfg where
  color : String
  messageIntro : String
  finalMessage : String
  title : String
  deriving DecidableEq, Repr

/-- The category-to-template selection of the handler. -/
def composeCfg (ty : JsValue) : ComposeCfg :=
  if isLabel ty "release" then
    { color := "warning"
      messageIntro := "リリースPRが届きました！📦🚀"
      finalMessage := "リリースに向けて確認をお願いします！📤✨"
      title := "リリースPRレビュー依頼" }
  else if isLabel ty "hotfix" then
    { color := "danger"
      messageIntro := "🔥【HOTFIX】緊急対応のPRです！🚨\n至急レビューをお願いします！"
      finalMessage := "早急な対応をお願いします！⏩🔥"
      title := "🔥【HOTFIX】PRレビュー依頼🔥" }
  else
    { color := "good"
      messageIntro := "新しい機能のレビュー依頼が届きました！✨🛠️"
      finalMessage := "レビューをよろしくお願いします！👍✨"
      title := "PRレビュー依頼" }

/-- `Array.prototype.join(sep)`. -/
def joinSep (sep : String) : List String → String
  | [] => ""
  | [x] => x
  | x :: y :: rest => x ++ sep ++ joinSep sep (y :: rest)

/-- `validSlackIds` from `userMapData`: filter truthy slack ids, format
each as a mention. -/
def resolvedMentions (rows : List UserRow) : List String :=
  (rows.filter fun u => truthyHandle u.slack_id).map
    fun u => "<@" ++ u.slack_id.getD "" ++ ">"

/-- The `text` field of the attachment the handler builds: the template
string with `mentions`, the category-selected phrases, and the event's
repository, title and URL interpolated. -/
def messageText (ty : JsValue) (validSlackIds : List String)
    (repository pr_title pr_url : String) : String :=
  joinSep "さん、" validSlackIds ++ "さん、" ++ (composeCfg ty).messageIntro ++
    "\n\n【リポジトリ】" ++ repository ++ "\n【タイトル】" ++ pr_title ++
    "\n【詳細】" ++ pr_url ++ "\n\n💻👉 " ++ (composeCfg ty).finalMessage

/-- The `slackMessage` object the handler builds. -/
def composeMessage (ty : JsValue) (validSlackIds : List String)
    (repository pr_title pr_url : String) : SlackMessage :=
  { attachments := [
      { color := (composeCfg ty).color
        title := (composeCfg ty).title
        text := messageText ty validSlackIds repository pr_title pr_url }] }

/-- The request handler, translated control-flow step by control-flow
step from `src/pages/api/slack.ts`: API-key check, method check, body
validation, dedup read, identity-map read, mention filtering, message
composition, webhook dispatch, record insert. -/
def handler (w : World) (req : Request) : Response × Effects :=
  if req.apiKey ≠ w.apiKeySecret then
    (⟨403, "Forbidden: Invalid API key"⟩, Effects.nil)
  else if req.method = "POST" then
    if !validBody req.body then
      (⟨400, "Invalid input"⟩, Effects.nil)
    else
      let reviewers := getStrList req.body.reviewers
      let repository := getStr req.body.repository
      let pr_id := getNum req.body.pr_id
      let pr_url := getStr req.body.pr_url
      let pr_title := getStr req.body.pr_title
      let e0 : Effects := ⟨[(repository, pr_id)], [], [], []⟩
      if (match w.dedupError repository pr_id with
          | some c => decide (c ≠ "PGRST116")
          | none => false) then
        (⟨500, "Error checking existing PR"⟩, e0)
      else if (w.dedupData repository pr_id).isSome then
        (⟨200, "PR already processed"⟩, e0)
      else
        let e1 : Effects := ⟨[(repository, pr_id)], [reviewers], [], []⟩
        if w.userMapError reviewers || (w.userMapData reviewers).isNone then
          (⟨500, "Error retrieving Slack IDs"⟩, e1)
        else
          let validSlackIds := resolvedMentions ((w.userMapData reviewers).getD [])
          if validSlackIds.length = 0 then
            (⟨400, "No valid Slack IDs found for reviewers"⟩, e1)
          else
            let slackMessage :=
              composeMessage req.body.type validSlackIds repository pr_title pr_url
            let e2 : Effects := ⟨[(repository, pr_id)], [reviewers], [slackMessage], []⟩
            if !w.webhookOk slackMessage then
              (⟨500, "Failed to send message to Slack"⟩, e2)
            else
              let row : SentPrRow :=
                ⟨repository, pr_id, pr_url, pr_title, getStr req.body.type⟩
              let e3 : Effects := ⟨[(repository, pr_id)], [reviewers], [slackMessage], [row]⟩
              if w.insertError row then
                (⟨500, "Error inserting data"⟩, e3)
              else
                (⟨201, "Data inserted successfully"⟩, e3)
  else
    (⟨405, "Method not allowed"⟩, Effects.nil)

/-- A body whose fields all carry the expected JavaScript types. -/
def mkBody (revs : List String) (repo : String) (pid : Int)
    (url ti ty : String) : Body :=
  ⟨.arr (revs.map .str), .str repo, .num pid, .str url, .str ti, .str ty⟩

/-- `sub` occurs as a contiguous substring of `s`. -/
def strContains (s sub : String) : Prop :=
  ∃ p q, s = p ++ sub ++ q

/-- A concrete world for instantiating the theorems: secret configured,
no processed record, four identity-map rows of which two have truthy
slack ids, webhook and insert succeed. -/
def wBase : World :=
  { apiKeySecret := some "s3cr3t"
    dedupData := fun _ _ => none
    dedupError := fun _ _ => some "PGRST116"
    userMapData := fun _ => some [⟨some "U1"⟩, ⟨none⟩, ⟨some ""⟩, ⟨some "U2"⟩]
    userMapError := fun _ => false
    webhookOk := fun _ => true
    insertError := fun _ => false }

/-- The identity-map rows `wBase` answers with. -/
def rowsBase : List UserRow := [⟨some "U1"⟩, ⟨none⟩, ⟨some ""⟩, ⟨some "U2"⟩]

/-- A concrete well-typed body. -/
def bodyBase : Body := mkBody ["alice", "bob"] "repo" 7 "http://pr" "fix bug" "hotfix"

/-- A concrete GET request carrying no credential header. -/
def reqGetNoKey : Request := ⟨"GET", none, bodyBase⟩

/-- `wBase`, except a processed record already exists for every pair. -/
def wDup : World :=
  { wBase with dedupData := fun _ _ => some (), dedupError := fun _ _ => none }

/-- `wBase`, except no identity-map row carries a truthy slack id. -/
def wNoIds : World :=
  { wBase with userMapData := fun _ => some [⟨none⟩, ⟨some ""⟩] }

/-- `wBase`, except the dedup query fails with a code other than the
"no rows" code. -/
def wBadDedup : World :=
  { wBase with dedupError := fun _ _ => some "BOOM" }

/-- `wBase`, except the identity-map query reports an error. -/
def wUserMapFail : World :=
  { wBase with userMapError := fun _ => true }

/-- `wBase`, except the webhook answers with a non-success status. -/
def wWebhookFail : World :=
  { wBase with webhookOk := fun _ => false }

/-- The concrete authenticated POST of `bodyBase`. -/
def reqPost : Request := ⟨"POST", some "s3cr3t", bodyBase⟩

/-- `wBase`, except the dedup query reports no error and the identity
map answers every query with no rows. -/
def wEmptyMap : World :=
  { wBase with dedupError := fun _ _ => none, userMapData := fun _ => some [] }

theorem strContains_head (sub t : String) : strContains (sub ++ t) sub :=
  ⟨"", t, by rw [String.empty_append]⟩

theorem strContains_tail (p sub : String) : strContains (p ++ sub) sub :=
  ⟨p, "", by rw [String.append_empty]⟩

theorem strContains_appendL {s sub : String} (h : strContains s sub)
    (t : String) : strContains (s ++ t) sub := by
  obtain ⟨p, q, rfl⟩ := h
  exact ⟨p, q ++ t, by rw [String.append_assoc (p ++ sub) q t]⟩

theorem strContains_appendR {s sub : String} (h : strContains s sub)
    (t : String) : strContains (t ++ s) sub := by
  obtain ⟨p, q, rfl⟩ := h
  exact ⟨t ++ p, q, by rw [String.append_assoc t p sub, String.append_assoc t (p ++ sub) q]⟩

/-- Every element of the joined list occurs in the joined string. -/
theorem strContains_joinSep (sep : String) (l : List String) (m : String)
    (h : m ∈ l) : strContains (joinSep sep l) m := by
  induction l with
  | nil => cases h
  | cons x xs ih =>
    cases xs with
    | nil =>
      have hx : m = x := by simpa using h
      subst hx
      exact ⟨"", "", by rw [String.empty_append, String.append_empty]; rfl⟩
    | cons y rest =>
      rcases List.mem_cons.mp h with rfl | h2
      · show strContains (m ++ sep ++ joinSep sep (y :: rest)) m
        rw [String.append_assoc]
        exact strContains_head m _
      · exact strContains_appendR (ih h2) (x ++ sep)

/-- The composed text contains the PR title. -/
theorem messageText_contains_title (ty : JsValue) (ids : List String)
    (repo ti url : String) : strContains (messageText ty ids repo ti url) ti := by
  unfold messageText
  apply strContains_appendL
  apply strContains_appendL
  apply strContains_appendL
  apply strContains_appendL
  exact strContains_tail _ ti

/-- The composed text contains the PR URL. -/
theorem messageText_contains_url (ty : JsValue) (ids : List String)
    (repo ti url : String) : strContains (messageText ty ids repo ti url) url := by
  unfold messageText
  apply strContains_appendL
  apply strContains_appendL
  exact strContains_tail _ url

/-- The composed text contains every formatted mention. -/
theorem messageText_contains_mention (ty : JsValue) (ids : List String)
    (repo ti url : String) (m : String) (h : m ∈ ids) :
    strContains (messageText ty ids repo ti url) m := by
  unfold messageText
  apply strContains_appendL
  apply strContains_appendL
  apply strContains_appendL
  apply strContains_appendL
  apply strContains_appendL
  apply strContains_appendL
  apply strContains_appendL
  apply strContains_appendL
  apply strContains_appendL
  apply strContains_appendL
  exact strContains_joinSep _ ids m h

/-- A body built by `mkBody` passes every shape check, so its validity
is exactly the category membership check. -/
theorem validBody_mkBody (revs : List String) (repo : String) (pid : Int)
    (url ti ty : String) :
    validBody (mkBody revs repo pid url ti ty) = typeIncluded (JsValue.str ty) := by
  simp [validBody, mkBody, isStringArray, isString, isNumber, List.all_map,
    Function.comp]

/-- Reading the reviewers back out of a `mkBody` body gives the original
list. -/
theorem getStrList_mkBody (revs : List String) (repo : String) (pid : Int)
    (url ti ty : String) :
    getStrList (mkBody revs repo pid url ti ty).reviewers = revs := by
  simp only [mkBody, getStrList, List.map_map]
  have h : getStr ∘ JsValue.str = id := funext fun s => rfl
  rw [h, List.map_id]

/-- C4: a request whose credential header is absent or differs from the
configured secret is answered 403, and no store read, store write or
webhook call occurs. -/
theorem C4_forbidden (w : World) (req : Request) (secret : String)
    (hsec : w.apiKeySecret = some secret)
    (hkey : req.apiKey ≠ some secret) :
    handler w req = (⟨403, "Forbidden: Invalid API key"⟩, Effects.nil) := by
  simp [handler, hsec, hkey]

/-- C4 witness: the concrete GET request without a credential header is
rejected 403 by `wBase`. -/
theorem C4_forbidden_witness :
    wBase.apiKeySecret = some "s3cr3t" ∧
    reqGetNoKey.apiKey ≠ some "s3cr3t" ∧
    handler wBase reqGetNoKey = (⟨403, "Forbidden: Invalid API key"⟩, Effects.nil) :=
  ⟨rfl, by simp [reqGetNoKey], C4_forbidden wBase reqGetNoKey "s3cr3t" rfl (by simp [reqGetNoKey])⟩

/-- C9 counterexample: a GET request without the credential header is
answered 403, not 405, because the credential check precedes the method
check. -/
theorem C9_non_post_counterexample :
    reqGetNoKey.method ≠ "POST" ∧
    (handler wBase reqGetNoKey).1.status = 403 ∧
    (handler wBase reqGetNoKey).1.status ≠ 405 := by
  refine ⟨by simp [reqGetNoKey], rfl, by simp [handler, wBase, reqGetNoKey]⟩

/-- C9 (amended): a request that passes the credential check and whose
method is not POST is answered 405 with no side effects. -/
theorem C9_non_post_405 (w : World) (req : Request)
    (hkey : req.apiKey = w.apiKeySecret)
    (hm : req.method ≠ "POST") :
    handler w req = (⟨405, "Method not allowed"⟩, Effects.nil) := by
  simp [handler, hkey, hm]

/-- C9 witness: a concrete authenticated GET request is answered 405. -/
theorem C9_non_post_405_witness :
    (Request.mk "GET" (some "s3cr3t") bodyBase).apiKey = wBase.apiKeySecret ∧
    (Request.mk "GET" (some "s3cr3t") bodyBase).method ≠ "POST" ∧
    handler wBase ⟨"GET", some "s3cr3t", bodyBase⟩ =
      (⟨405, "Method not allowed"⟩, Effects.nil) :=
  ⟨rfl, by simp, C9_non_post_405 wBase ⟨"GET", some "s3cr3t", bodyBase⟩ rfl (by simp)⟩

/-- C5: an authenticated POST whose body fails any of the shape checks
(reviewers not an array of strings, repository / pr_url / pr_title not a
string, pr_id not a number, or category outside {feature, release,
hotfix}) is answered 400 with no store or webhook call. -/
theorem C5_invalid_input (w : World) (key : String) (b : Body)
    (hkey : w.apiKeySecret = some key)
    (hbad : isStringArray b.reviewers = false ∨ isString b.repository = false ∨
      isNumber b.pr_id = false ∨ isString b.pr_url = false ∨
      isString b.pr_title = false ∨ typeIncluded b.type = false) :
    handler w ⟨"POST", some key, b⟩ = (⟨400, "Invalid input"⟩, Effects.nil) := by
  have hv : validBody b = false := by
    rcases hbad with h | h | h | h | h | h <;> simp [validBody, h]
  simp [handler, hkey, hv]

/-- C5 witness: a body whose category label is outside the closed set is
rejected 400 by `wBase`. -/
theorem C5_invalid_input_witness :
    wBase.apiKeySecret = some "s3cr3t" ∧
    typeIncluded (mkBody ["alice"] "repo" 7 "u" "t" "expedite").type = false ∧
    handler wBase ⟨"POST", some "s3cr3t", mkBody ["alice"] "repo" 7 "u" "t" "expedite"⟩ =
      (⟨400, "Invalid input"⟩, Effects.nil) :=
  ⟨rfl, by decide,
    C5_invalid_input wBase "s3cr3t" (mkBody ["alice"] "repo" 7 "u" "t" "expedite") rfl
      (Or.inr (Or.inr (Or.inr (Or.inr (Or.inr (by decide))))))⟩

/-- C2: an authenticated, shape-valid POST whose (repository, pr_id)
pair already has a row in the processed-record store is answered 200,
with no webhook call and no insert. -/
theorem C2_already_processed (w : World) (key : String) (b : Body)
    (hkey : w.apiKeySecret = some key)
    (hvalid : validBody b = true)
    (hde : w.dedupError (getStr b.repository) (getNum b.pr_id) = none)
    (hdd : w.dedupData (getStr b.repository) (getNum b.pr_id) = some ()) :
    handler w ⟨"POST", some key, b⟩ =
      (⟨200, "PR already processed"⟩,
        ⟨[(getStr b.repository, getNum b.pr_id)], [], [], []⟩) := by
  simp [handler, hkey, hvalid, hde, hdd]

/-- C2 witness: with a row already recorded for ("repo", 7), the
concrete valid request is answered 200 and the only outbound call is the
dedup read. -/
theorem C2_already_processed_witness :
    validBody bodyBase = true ∧
    handler wDup ⟨"POST", some "s3cr3t", bodyBase⟩ =
      (⟨200, "PR already processed"⟩, ⟨[("repo", 7)], [], [], []⟩) :=
  ⟨by decide, C2_already_processed wDup "s3cr3t" bodyBase rfl (by decide) rfl rfl⟩

theorem mkBody_repository (revs : List String) (repo : String) (pid : Int)
    (url ti ty : String) :
    (mkBody revs repo pid url ti ty).repository = JsValue.str repo := rfl

theorem mkBody_pr_id (revs : List String) (repo : String) (pid : Int)
    (url ti ty : String) :
    (mkBody revs repo pid url ti ty).pr_id = JsValue.num pid := rfl

theorem mkBody_pr_url (revs : List String) (repo : String) (pid : Int)
    (url ti ty : String) :
    (mkBody revs repo pid url ti ty).pr_url = JsValue.str url := rfl

theorem mkBody_pr_title (revs : List String) (repo : String) (pid : Int)
    (url ti ty : String) :
    (mkBody revs repo pid url ti ty).pr_title = JsValue.str ti := rfl

theorem mkBody_type (revs : List String) (repo : String) (pid : Int)
    (url ti ty : String) :
    (mkBody revs repo pid url ti ty).type = JsValue.str ty := rfl

/-- C1: an authenticated, shape-valid, unseen POST whose reviewers
resolve to at least one mention is answered 201; the webhook receives
exactly one call, whose text contains the PR title, the PR URL and every
resolved mention; and exactly one record is inserted, with the event's
repository, pr_id, pr_url, pr_title and category. -/
theorem C1_success_notifies_and_records (w : World) (revs : List String)
    (repo : String) (pid : Int) (url ti ty key : String) (rows : List UserRow)
    (hkey : w.apiKeySecret = some key)
    (hty : ty = "feature" ∨ ty = "release" ∨ ty = "hotfix")
    (hde : w.dedupError repo pid = none ∨ w.dedupError repo pid = some "PGRST116")
    (hdd : w.dedupData repo pid = none)
    (hum : w.userMapData revs = some rows)
    (hue : w.userMapError revs = false)
    (hne : resolvedMentions rows ≠ [])
    (hweb : w.webhookOk
      (composeMessage (JsValue.str ty) (resolvedMentions rows) repo ti url) = true)
    (hins : w.insertError ⟨repo, pid, url, ti, ty⟩ = false) :
    handler w ⟨"POST", some key, mkBody revs repo pid url ti ty⟩ =
      (⟨201, "Data inserted successfully"⟩,
        ⟨[(repo, pid)], [revs],
          [composeMessage (JsValue.str ty) (resolvedMentions rows) repo ti url],
          [⟨repo, pid, url, ti, ty⟩]⟩) ∧
    strContains (messageText (JsValue.str ty) (resolvedMentions rows) repo ti url) ti ∧
    strContains (messageText (JsValue.str ty) (resolvedMentions rows) repo ti url) url ∧
    ∀ m ∈ resolvedMentions rows,
      strContains (messageText (JsValue.str ty) (resolvedMentions rows) repo ti url) m := by
  refine ⟨?_, messageText_contains_title _ _ _ _ _, messageText_contains_url _ _ _ _ _,
    fun m hm => messageText_contains_mention _ _ _ _ _ m hm⟩
  have hv : validBody (mkBody revs repo pid url ti ty) = true := by
    rw [validBody_mkBody]
    rcases hty with rfl | rfl | rfl <;> rfl
  rcases hde with hde | hde <;>
    simp [handler, hkey, hv, getStrList_mkBody, mkBody_repository, mkBody_pr_id,
      mkBody_pr_url, mkBody_pr_title, mkBody_type, getStr, getNum, hde, hdd, hum,
      hue, List.length_eq_zero, hne, hweb, hins]

/-- C1 witness: the concrete hotfix request against `wBase` is answered
201, dispatches one composed message, and inserts one matching record. -/
theorem C1_success_witness :
    handler wBase reqPost =
      (⟨201, "Data inserted successfully"⟩,
        ⟨[("repo", 7)], [["alice", "bob"]],
          [composeMessage (JsValue.str "hotfix") (resolvedMentions rowsBase)
            "repo" "fix bug" "http://pr"],
          [⟨"repo", 7, "http://pr", "fix bug", "hotfix"⟩]⟩) ∧
    strContains (messageText (JsValue.str "hotfix") (resolvedMentions rowsBase)
      "repo" "fix bug" "http://pr") "fix bug" ∧
    strContains (messageText (JsValue.str "hotfix") (resolvedMentions rowsBase)
      "repo" "fix bug" "http://pr") "http://pr" ∧
    ∀ m ∈ resolvedMentions rowsBase,
      strContains (messageText (JsValue.str "hotfix") (resolvedMentions rowsBase)
        "repo" "fix bug" "http://pr") m :=
  C1_success_notifies_and_records wBase ["alice", "bob"] "repo" 7 "http://pr"
    "fix bug" "hotfix" "s3cr3t" rowsBase rfl (Or.inr (Or.inr rfl)) (Or.inr rfl)
    rfl rfl rfl (by decide) rfl rfl

/-- C3: when the webhook dispatch answers a non-success status, the
handler is answered 500 and no record is inserted: the store is left
unchanged on this path. -/
theorem C3_dispatch_failure_no_insert (w : World) (revs : List String)
    (repo : String) (pid : Int) (url ti ty key : String) (rows : List UserRow)
    (hkey : w.apiKeySecret = some key)
    (hty : ty = "feature" ∨ ty = "release" ∨ ty = "hotfix")
    (hde : w.dedupError repo pid = none ∨ w.dedupError repo pid = some "PGRST116")
    (hdd : w.dedupData repo pid = none)
    (hum : w.userMapData revs = some rows)
    (hue : w.userMapError revs = false)
    (hne : resolvedMentions rows ≠ [])
    (hweb : w.webhookOk
      (composeMessage (JsValue.str ty) (resolvedMentions rows) repo ti url) = false) :
    handler w ⟨"POST", some key, mkBody revs repo pid url ti ty⟩ =
      (⟨500, "Failed to send message to Slack"⟩,
        ⟨[(repo, pid)], [revs],
          [composeMessage (JsValue.str ty) (resolvedMentions rows) repo ti url],
          []⟩) := by
  have hv : validBody (mkBody revs repo pid url ti ty) = true := by
    rw [validBody_mkBody]
    rcases hty with rfl | rfl | rfl <;> rfl
  rcases hde with hde | hde <;>
    simp [handler, hkey, hv, getStrList_mkBody, mkBody_repository, mkBody_pr_id,
      mkBody_pr_url, mkBody_pr_title, mkBody_type, getStr, getNum, hde, hdd, hum,
      hue, List.length_eq_zero, hne, hweb]

/-- C3 witness: with a failing webhook, the concrete request is answered
500 and the insert list stays empty. -/
theorem C3_dispatch_failure_witness :
    handler wWebhookFail reqPost =
      (⟨500, "Failed to send message to Slack"⟩,
        ⟨[("repo", 7)], [["alice", "bob"]],
          [composeMessage (JsValue.str "hotfix") (resolvedMentions rowsBase)
            "repo" "fix bug" "http://pr"],
          []⟩) :=
  C3_dispatch_failure_no_insert wWebhookFail ["alice", "bob"] "repo" 7 "http://pr"
    "fix bug" "hotfix" "s3cr3t" rowsBase rfl (Or.inr (Or.inr rfl)) (Or.inr rfl)
    rfl rfl rfl (by decide) rfl

/-- C7: when every reviewer resolves to an absent or empty slack id, the
handler is answered 400 and no webhook dispatch occurs. -/
theorem C7_no_recipients (w : World) (revs : List String)
    (repo : String) (pid : Int) (url ti ty key : String) (rows : List UserRow)
    (hkey : w.apiKeySecret = some key)
    (hty : ty = "feature" ∨ ty = "release" ∨ ty = "hotfix")
    (hde : w.dedupError repo pid = none ∨ w.dedupError repo pid = some "PGRST116")
    (hdd : w.dedupData repo pid = none)
    (hum : w.userMapData revs = some rows)
    (hue : w.userMapError revs = false)
    (hall : ∀ r ∈ rows, truthyHandle r.slack_id = false) :
    handler w ⟨"POST", some key, mkBody revs repo pid url ti ty⟩ =
      (⟨400, "No valid Slack IDs found for reviewers"⟩,
        ⟨[(repo, pid)], [revs], [], []⟩) := by
  have hv : validBody (mkBody revs repo pid url ti ty) = true := by
    rw [validBody_mkBody]
    rcases hty with rfl | rfl | rfl <;> rfl
  have h0 : resolvedMentions rows = [] := by
    unfold resolvedMentions
    rw [List.filter_eq_nil_iff.mpr (by simpa using hall)]
    rfl
  rcases hde with hde | hde <;>
    simp [handler, hkey, hv, getStrList_mkBody, mkBody_repository, mkBody_pr_id,
      mkBody_pr_url, mkBody_pr_title, mkBody_type, getStr, getNum, hde, hdd, hum,
      hue, h0]

/-- C7 witness: when the identity map has only an absent and an empty
slack id, the concrete request is answered 400 and no webhook call is
logged. -/
theorem C7_no_recipients_witness :
    handler wNoIds reqPost =
      (⟨400, "No valid Slack IDs found for reviewers"⟩,
        ⟨[("repo", 7)], [["alice", "bob"]], [], []⟩) :=
  C7_no_recipients wNoIds ["alice", "bob"] "repo" 7 "http://pr" "fix bug"
    "hotfix" "s3cr3t" [⟨none⟩, ⟨some ""⟩] rfl (Or.inr (Or.inr rfl)) (Or.inr rfl)
    rfl rfl rfl (by decide)

/-- C8: a dedup-check failure with any code other than "PGRST116" is
answered 500 with no webhook call and no insert; an identity-map lookup
failure (error, or absent data) is likewise answered 500 with no webhook
call and no insert; a dedup-check failure with exactly the "PGRST116"
"no rows" code lets processing proceed to the identity-map read. -/
theorem C8_store_read_failures (w : World) (revs : List String)
    (repo : String) (pid : Int) (url ti ty key : String)
    (hkey : w.apiKeySecret = some key)
    (hty : ty = "feature" ∨ ty = "release" ∨ ty = "hotfix") :
    (∀ c, c ≠ "PGRST116" → w.dedupError repo pid = some c →
      handler w ⟨"POST", some key, mkBody revs repo pid url ti ty⟩ =
        (⟨500, "Error checking existing PR"⟩, ⟨[(repo, pid)], [], [], []⟩)) ∧
    (w.dedupError repo pid = some "PGRST116" → w.dedupData repo pid = none →
      (w.userMapError revs = true ∨ w.userMapData revs = none) →
      handler w ⟨"POST", some key, mkBody revs repo pid url ti ty⟩ =
        (⟨500, "Error retrieving Slack IDs"⟩, ⟨[(repo, pid)], [revs], [], []⟩)) ∧
    (w.dedupError repo pid = some "PGRST116" → w.dedupData repo pid = none →
      (handler w ⟨"POST", some key, mkBody revs repo pid url ti ty⟩).2.userMapReads
        = [revs]) := by
  have hv : validBody (mkBody revs repo pid url ti ty) = true := by
    rw [validBody_mkBody]
    rcases hty with rfl | rfl | rfl <;> rfl
  refine ⟨?_, ?_, ?_⟩
  · intro c hc hde
    simp [handler, hkey, hv, mkBody_repository, mkBody_pr_id, getStr, getNum,
      hde, hc]
  · intro hde hdd hfail
    rcases hfail with hf | hf <;>
      simp [handler, hkey, hv, getStrList_mkBody, mkBody_repository, mkBody_pr_id,
        getStr, getNum, hde, hdd, hf]
  · intro hde hdd
    simp [handler, hkey, hv, getStrList_mkBody, mkBody_repository,
      mkBody_pr_id, mkBody_pr_url, mkBody_pr_title, mkBody_type, getStr, getNum,
      hde, hdd]
    repeat' split
    all_goals rfl

/-- C8 witness: the three outcomes at concrete worlds — dedup failure
code "BOOM" gives 500 before the identity read; identity-map failure
gives 500 with no dispatch and no insert; a "PGRST116" dedup answer lets
the identity-map read happen. -/
theorem C8_store_read_failures_witness :
    handler wBadDedup reqPost =
      (⟨500, "Error checking existing PR"⟩, ⟨[("repo", 7)], [], [], []⟩) ∧
    handler wUserMapFail reqPost =
      (⟨500, "Error retrieving Slack IDs"⟩, ⟨[("repo", 7)], [["alice", "bob"]], [], []⟩) ∧
    (handler wBase reqPost).2.userMapReads = [["alice", "bob"]] :=
  ⟨(C8_store_read_failures wBadDedup ["alice", "bob"] "repo" 7 "http://pr"
      "fix bug" "hotfix" "s3cr3t" rfl (Or.inr (Or.inr rfl))).1 "BOOM"
      (by decide) rfl,
   (C8_store_read_failures wUserMapFail ["alice", "bob"] "repo" 7 "http://pr"
      "fix bug" "hotfix" "s3cr3t" rfl (Or.inr (Or.inr rfl))).2.1 rfl rfl
      (Or.inl rfl),
   (C8_store_read_failures wBase ["alice", "bob"] "repo" 7 "http://pr"
      "fix bug" "hotfix" "s3cr3t" rfl (Or.inr (Or.inr rfl))).2.2 rfl rfl⟩

/-- C10: a body whose reviewers field is the empty array passes the
shape validation, and on an unseen pair for which the identity store
answers the empty query with no rows, the request ends 400 with the
no-recipients outcome after the dedup read, with no webhook call and no
insert. -/
theorem C10_empty_reviewers_no_recipients (w : World)
    (repo : String) (pid : Int) (url ti ty key : String)
    (hkey : w.apiKeySecret = some key)
    (hty : ty = "feature" ∨ ty = "release" ∨ ty = "hotfix")
    (hde : w.dedupError repo pid = none ∨ w.dedupError repo pid = some "PGRST116")
    (hdd : w.dedupData repo pid = none)
    (hum : w.userMapData [] = some [])
    (hue : w.userMapError [] = false) :
    validBody (mkBody [] repo pid url ti ty) = true ∧
    handler w ⟨"POST", some key, mkBody [] repo pid url ti ty⟩ =
      (⟨400, "No valid Slack IDs found for reviewers"⟩,
        ⟨[(repo, pid)], [[]], [], []⟩) := by
  have hv : validBody (mkBody [] repo pid url ti ty) = true := by
    rw [validBody_mkBody]
    rcases hty with rfl | rfl | rfl <;> rfl
  refine ⟨hv, ?_⟩
  rcases hde with hde | hde <;>
    simp [handler, hkey, hv, getStrList_mkBody, mkBody_repository, mkBody_pr_id,
      mkBody_pr_url, mkBody_pr_title, mkBody_type, getStr, getNum, hde, hdd, hum,
      hue, resolvedMentions]

/-- C10 witness: the concrete empty-reviewers request is valid and ends
400 after the dedup read. -/
theorem C10_empty_reviewers_witness :
    validBody (mkBody [] "repo" 7 "http://pr" "fix bug" "feature") = true ∧
    handler wEmptyMap ⟨"POST", some "s3cr3t", mkBody [] "repo" 7 "http://pr" "fix bug" "feature"⟩ =
      (⟨400, "No valid Slack IDs found for reviewers"⟩,
        ⟨[("repo", 7)], [[]], [], []⟩) :=
  C10_empty_reviewers_no_recipients wEmptyMap "repo" 7 "http://pr" "fix bug"
    "feature" "s3cr3t" rfl (Or.inl rfl) (Or.inl rfl) rfl rfl rfl

/-- C6: the message composer is a pure function of its inputs — category
"hotfix" selects the urgent-framing tuple (danger color, hotfix
title/intro/closing), "release" the cautionary tuple (warning color),
"feature" and an absent category the default tuple (good color); the
full payload at one fixed input equals its literal template; and
identical inputs give byte-identical payloads. -/
theorem C6_composer_pure_templates :
    composeCfg (JsValue.str "hotfix") =
      ⟨"danger", "🔥【HOTFIX】緊急対応のPRです！🚨\n至急レビューをお願いします！",
        "早急な対応をお願いします！⏩🔥", "🔥【HOTFIX】PRレビュー依頼🔥"⟩ ∧
    composeCfg (JsValue.str "release") =
      ⟨"warning", "リリースPRが届きました！📦🚀",
        "リリースに向けて確認をお願いします！📤✨", "リリースPRレビュー依頼"⟩ ∧
    composeCfg (JsValue.str "feature") =
      ⟨"good", "新しい機能のレビュー依頼が届きました！✨🛠️",
        "レビューをよろしくお願いします！👍✨", "PRレビュー依頼"⟩ ∧
    composeCfg JsValue.undef = composeCfg (JsValue.str "feature") ∧
    composeMessage (JsValue.str "hotfix") ["<@U1>"] "repo" "fix bug" "http://pr" =
      { attachments := [⟨"danger", "🔥【HOTFIX】PRレビュー依頼🔥",
          "<@U1>さん、🔥【HOTFIX】緊急対応のPRです！🚨\n至急レビューをお願いします！\n\n【リポジトリ】repo\n【タイトル】fix bug\n【詳細】http://pr\n\n💻👉 早急な対応をお願いします！⏩🔥"⟩] } ∧
    ∀ (ty : JsValue) (ids : List String) (repo ti url : String),
      composeMessage ty ids repo ti url = composeMessage ty ids repo ti url :=
  ⟨rfl, rfl, rfl, rfl, rfl, fun _ _ _ _ _ => rfl⟩

end NotifyPr
